import Mathlib

/-!
Shallow embedding of the Zephyr plaintext transport
(`src/platform/zephyr/transport/src/plaintext_zephyr.c`) and proofs about its
polling-and-timeout discipline.

The four operations `Plaintext_Connect`, `Plaintext_Disconnect`,
`Plaintext_Recv` and `Plaintext_Send` are translated directly from the C
source.  External collaborators (`Sockets_Connect`, `Sockets_Disconnect`,
`zsock_select`, `zsock_recv`, `zsock_send`, `errno`) are modelled as explicit
oracles/parameters, and each operation returns, besides its C return value,
a record of the collaborator calls it made and of the log entry it issued
(if any), so that side effects can be stated and proved.
-/

/-- Milliseconds per second (`ONE_SEC_TO_MS` in the source). -/
def ONE_SEC_TO_MS : Int := 1000

/-- Microseconds per millisecond (`ONE_MS_TO_US` in the source). -/
def ONE_MS_TO_US : Int := 1000

/-- Embedding of C `struct timeval` as used for the select wait budget. -/
structure Timeval where
  tv_sec : Int
  tv_usec : Int
  deriving DecidableEq

/-- Modelled from the spec: `PlaintextParams_t` (declared in a header that is
not part of the source tree) is the caller-owned parameter block holding the
opaque socket handle, the sole attribute of a Connection. -/
structure PlaintextParams where
  socketDescriptor : Int
  deriving DecidableEq

/-- The `NetworkContext` struct defined in the compilation unit: it holds a
(possibly null) pointer to the parameter block.  A null `pParams` pointer is
`none`. -/
structure NetworkContext where
  pParams : Option PlaintextParams
  deriving DecidableEq

/-- Modelled from the spec: `ServerInfo_t` (declared in a header that is not
part of the source tree) carries opaque server address/port information, only
passed through to the socket collaborator. -/
structure ServerInfo where
  hostName : String
  port : Nat
  deriving DecidableEq

/-- Modelled from the spec: the status enumeration `SocketStatus_t` (declared
in a header that is not part of the source tree).  The spec names the success
and invalid-parameter statuses; every other collaborator-produced status is
abstracted as `apiError` with an opaque code. -/
inductive SocketStatus where
  | success
  | invalidParameter
  | apiError (code : Int)
  deriving DecidableEq

/-- Record of one `zsock_select` invocation: its `nfds` argument, the single
descriptor placed in the read set (if any), the single descriptor placed in
the write set (if any), and the timeout passed. -/
structure SelectCall where
  nfds : Int
  readfd : Option Int
  writefd : Option Int
  timeout : Timeval
  deriving DecidableEq

/-- Oracle for the collaborators consulted by `Plaintext_Recv`: the value
`zsock_select` returns, the value `zsock_recv` returns (as the `int32_t` the
source casts it to) should a read be attempted, and the current `errno`. -/
structure RecvEnv where
  selectResult : Int
  recvResult : Int
  errno : Int
  deriving DecidableEq

/-- Result of `Plaintext_Recv`: the returned byte count, the parameter block
after the call, the `zsock_select` calls made, the `zsock_recv` calls made
(descriptor and requested byte count), and the error number reported through
`logTransportError`, if any. -/
structure RecvOutcome where
  ret : Int
  params : PlaintextParams
  selectCalls : List SelectCall
  recvCalls : List (Int × Nat)
  logged : Option Int
  deriving DecidableEq

/-- Oracle for the collaborators consulted by `Plaintext_Send`, mirroring
`RecvEnv` with `zsock_send` in place of `zsock_recv`. -/
structure SendEnv where
  selectResult : Int
  sendResult : Int
  errno : Int
  deriving DecidableEq

/-- Result of `Plaintext_Send`, mirroring `RecvOutcome`. -/
structure SendOutcome where
  ret : Int
  params : PlaintextParams
  selectCalls : List SelectCall
  sendCalls : List (Int × Nat)
  logged : Option Int
  deriving DecidableEq

/-- `logTransportError`: the log entry records exactly the error number it is
given. -/
def logTransportError (errorNumber : Int) : Int :=
  errorNumber

/-- `Plaintext_Recv` (source lines 114-174), on inputs satisfying the asserted
preconditions (non-null context and parameter block, non-null buffer,
`bytesToRecv > 0`).  The wait budget is built from the literal 500 exactly as
in the source; the three-way branch on `selectStatus` and the subsequent
normalization/logging branch are translated verbatim. -/
def Plaintext_Recv (env : RecvEnv) (pPlaintextParams : PlaintextParams)
    (bytesToRecv : Nat) : RecvOutcome :=
  let recvTimeout : Timeval :=
    { tv_sec := (500 : Int) / ONE_SEC_TO_MS,
      tv_usec := ONE_MS_TO_US * ((500 : Int) % ONE_SEC_TO_MS) }
  let selectCall : SelectCall :=
    { nfds := pPlaintextParams.socketDescriptor + 1,
      readfd := some pPlaintextParams.socketDescriptor,
      writefd := none,
      timeout := recvTimeout }
  let selectStatus := env.selectResult
  let firstBranch : Int × List (Int × Nat) :=
    if selectStatus > 0 then
      (env.recvResult, [(pPlaintextParams.socketDescriptor, bytesToRecv)])
    else if selectStatus < 0 then
      (-1, [])
    else
      (0, [])
  let bytesReceived := firstBranch.1
  let secondBranch : Int × Option Int :=
    if selectStatus > 0 ∧ bytesReceived = 0 then
      (-1, none)
    else if bytesReceived < 0 then
      (bytesReceived, some (logTransportError env.errno))
    else
      (bytesReceived, none)
  { ret := secondBranch.1,
    params := pPlaintextParams,
    selectCalls := [selectCall],
    recvCalls := firstBranch.2,
    logged := secondBranch.2 }

/-- `Plaintext_Send` (source lines 177-237), on inputs satisfying the asserted
preconditions, translated verbatim like `Plaintext_Recv` with the write set
in place of the read set and `zsock_send` in place of `zsock_recv`. -/
def Plaintext_Send (env : SendEnv) (pPlaintextParams : PlaintextParams)
    (bytesToSend : Nat) : SendOutcome :=
  let sendTimeout : Timeval :=
    { tv_sec := (500 : Int) / ONE_SEC_TO_MS,
      tv_usec := ONE_MS_TO_US * ((500 : Int) % ONE_SEC_TO_MS) }
  let selectCall : SelectCall :=
    { nfds := pPlaintextParams.socketDescriptor + 1,
      readfd := none,
      writefd := some pPlaintextParams.socketDescriptor,
      timeout := sendTimeout }
  let selectStatus := env.selectResult
  let firstBranch : Int × List (Int × Nat) :=
    if selectStatus > 0 then
      (env.sendResult, [(pPlaintextParams.socketDescriptor, bytesToSend)])
    else if selectStatus < 0 then
      (-1, [])
    else
      (0, [])
  let bytesSent := firstBranch.1
  let secondBranch : Int × Option Int :=
    if selectStatus > 0 ∧ bytesSent = 0 then
      (-1, none)
    else if bytesSent < 0 then
      (bytesSent, some (logTransportError env.errno))
    else
      (bytesSent, none)
  { ret := secondBranch.1,
    params := pPlaintextParams,
    selectCalls := [selectCall],
    sendCalls := firstBranch.2,
    logged := secondBranch.2 }

/-- Record of one `Sockets_Connect` invocation: the socket-descriptor value
behind the pointer that was passed, the server info, and the two forwarded
timeouts. -/
structure ConnectCall where
  descriptorIn : Int
  serverInfo : ServerInfo
  sendTimeoutMs : Nat
  recvTimeoutMs : Nat
  deriving DecidableEq

/-- Result of `Plaintext_Connect`: the returned status, the context after the
call (the collaborator writes the descriptor through the pointer it was
given), and the collaborator invocations made. -/
structure ConnectResult where
  status : SocketStatus
  ctx : Option NetworkContext
  calls : List ConnectCall
  deriving DecidableEq

/-- `Plaintext_Connect` (source lines 66-90).  The `Sockets_Connect`
collaborator is an oracle taking the current descriptor value behind the
pointer plus the forwarded arguments, and returning its status together
with the descriptor value it stores through the pointer. -/
def Plaintext_Connect (sockets_Connect : Int → ServerInfo → Nat → Nat → SocketStatus × Int)
    (pNetworkContext : Option NetworkContext) (pServerInfo : ServerInfo)
    (sendTimeoutMs recvTimeoutMs : Nat) : ConnectResult :=
  match pNetworkContext with
  | none =>
    { status := .invalidParameter, ctx := none, calls := [] }
  | some ctx =>
    match ctx.pParams with
    | none =>
      { status := .invalidParameter, ctx := some ctx, calls := [] }
    | some pPlaintextParams =>
      let r := sockets_Connect pPlaintextParams.socketDescriptor pServerInfo
        sendTimeoutMs recvTimeoutMs
      { status := r.1,
        ctx := some { pParams := some { socketDescriptor := r.2 } },
        calls := [{ descriptorIn := pPlaintextParams.socketDescriptor,
                    serverInfo := pServerInfo,
                    sendTimeoutMs := sendTimeoutMs,
                    recvTimeoutMs := recvTimeoutMs }] }

/-- Result of `Plaintext_Disconnect`: the returned status, the context after
the call, and the descriptors passed to `Sockets_Disconnect`. -/
structure DisconnectResult where
  status : SocketStatus
  ctx : Option NetworkContext
  calls : List Int
  deriving DecidableEq

/-- `Plaintext_Disconnect` (source lines 93-111).  The `Sockets_Disconnect`
collaborator is an oracle from the descriptor to a status. -/
def Plaintext_Disconnect (sockets_Disconnect : Int → SocketStatus)
    (pNetworkContext : Option NetworkContext) : DisconnectResult :=
  match pNetworkContext with
  | none =>
    { status := .invalidParameter, ctx := none, calls := [] }
  | some ctx =>
    match ctx.pParams with
    | none =>
      { status := .invalidParameter, ctx := some ctx, calls := [] }
    | some pPlaintextParams =>
      { status := sockets_Disconnect pPlaintextParams.socketDescriptor,
        ctx := some ctx,
        calls := [pPlaintextParams.socketDescriptor] }

/-- C1 counterexample: with the poll reporting ready (`selectResult = 1`) and
the read returning exactly 0 bytes, the call returns -1 but issues NO log
entry: the peer-closed normalization takes the first branch of the final
`if`/`else if`, so `logTransportError` is never reached. -/
theorem recv_peer_closed_claim_counterexample :
    (Plaintext_Recv { selectResult := 1, recvResult := 0, errno := 7 }
      { socketDescriptor := 3 } 10).ret = -1 ∧
    (Plaintext_Recv { selectResult := 1, recvResult := 0, errno := 7 }
      { socketDescriptor := 3 } 10).logged = none := by
  decide

/-- C1 (amended): whenever the readiness poll reports ready and the read
returns exactly 0 bytes, `Plaintext_Recv` returns exactly -1 and no log
entry is issued. -/
theorem recv_peer_closed_returns_neg_one (env : RecvEnv)
    (pPlaintextParams : PlaintextParams) (bytesToRecv : Nat)
    (hsel : env.selectResult > 0) (hrecv : env.recvResult = 0) :
    (Plaintext_Recv env pPlaintextParams bytesToRecv).ret = -1 ∧
    (Plaintext_Recv env pPlaintextParams bytesToRecv).logged = none := by
  simp [Plaintext_Recv, hsel, hrecv]

/-- Witness for C1 (amended) at a concrete input. -/
theorem recv_peer_closed_returns_neg_one_witness :
    (Plaintext_Recv { selectResult := 2, recvResult := 0, errno := 5 }
      { socketDescriptor := 4 } 8).ret = -1 ∧
    (Plaintext_Recv { selectResult := 2, recvResult := 0, errno := 5 }
      { socketDescriptor := 4 } 8).logged = none :=
  recv_peer_closed_returns_neg_one _ _ _ (by decide) (by decide)

/-- C2: whenever the readiness poll times out (`selectResult = 0`),
`Plaintext_Recv` returns exactly 0, issues no log entry, and makes no
`zsock_recv` call. -/
theorem recv_timeout_returns_zero (env : RecvEnv)
    (pPlaintextParams : PlaintextParams) (bytesToRecv : Nat)
    (hsel : env.selectResult = 0) :
    (Plaintext_Recv env pPlaintextParams bytesToRecv).ret = 0 ∧
    (Plaintext_Recv env pPlaintextParams bytesToRecv).logged = none ∧
    (Plaintext_Recv env pPlaintextParams bytesToRecv).recvCalls = [] := by
  simp [Plaintext_Recv, hsel]

/-- Witness for C2 at a concrete input. -/
theorem recv_timeout_returns_zero_witness :
    (Plaintext_Recv { selectResult := 0, recvResult := 9, errno := 5 }
      { socketDescriptor := 4 } 8).ret = 0 ∧
    (Plaintext_Recv { selectResult := 0, recvResult := 9, errno := 5 }
      { socketDescriptor := 4 } 8).logged = none ∧
    (Plaintext_Recv { selectResult := 0, recvResult := 9, errno := 5 }
      { socketDescriptor := 4 } 8).recvCalls = [] :=
  recv_timeout_returns_zero _ _ _ (by decide)

/-- C3: whenever the readiness poll itself errors (`selectResult < 0`),
`Plaintext_Recv` returns exactly -1 and makes no `zsock_recv` call. -/
theorem recv_poll_error_returns_neg_one (env : RecvEnv)
    (pPlaintextParams : PlaintextParams) (bytesToRecv : Nat)
    (hsel : env.selectResult < 0) :
    (Plaintext_Recv env pPlaintextParams bytesToRecv).ret = -1 ∧
    (Plaintext_Recv env pPlaintextParams bytesToRecv).recvCalls = [] := by
  have hnp : ¬ env.selectResult > 0 := by omega
  simp [Plaintext_Recv, hsel, hnp]

/-- Witness for C3 at a concrete input. -/
theorem recv_poll_error_returns_neg_one_witness :
    (Plaintext_Recv { selectResult := -2, recvResult := 9, errno := 5 }
      { socketDescriptor := 4 } 8).ret = -1 ∧
    (Plaintext_Recv { selectResult := -2, recvResult := 9, errno := 5 }
      { socketDescriptor := 4 } 8).recvCalls = [] :=
  recv_poll_error_returns_neg_one _ _ _ (by decide)

/-- C4: whenever the readiness poll reports ready and the read returns a
positive count N, `Plaintext_Recv` returns exactly N (no retry: a single
`zsock_recv` call is made, for the full requested byte count) and no log
entry is issued. -/
theorem recv_ready_positive_passthrough (env : RecvEnv)
    (pPlaintextParams : PlaintextParams) (bytesToRecv : Nat)
    (hsel : env.selectResult > 0) (hpos : env.recvResult > 0) :
    (Plaintext_Recv env pPlaintextParams bytesToRecv).ret = env.recvResult ∧
    (Plaintext_Recv env pPlaintextParams bytesToRecv).logged = none ∧
    (Plaintext_Recv env pPlaintextParams bytesToRecv).recvCalls =
      [(pPlaintextParams.socketDescriptor, bytesToRecv)] := by
  have hne : ¬ env.recvResult = 0 := by omega
  have hnn : ¬ env.recvResult < 0 := by omega
  simp [Plaintext_Recv, hsel, hne, hnn]

/-- Witness for C4 at a concrete input where the count read (3) is less than
the requested byte count (8). -/
theorem recv_ready_positive_passthrough_witness :
    (Plaintext_Recv { selectResult := 1, recvResult := 3, errno := 5 }
      { socketDescriptor := 4 } 8).ret = 3 ∧
    (Plaintext_Recv { selectResult := 1, recvResult := 3, errno := 5 }
      { socketDescriptor := 4 } 8).logged = none ∧
    (Plaintext_Recv { selectResult := 1, recvResult := 3, errno := 5 }
      { socketDescriptor := 4 } 8).recvCalls = [(4, 8)] :=
  recv_ready_positive_passthrough _ _ _ (by decide) (by decide)

/-- C5: in every call to `Plaintext_Recv` and every call to `Plaintext_Send`,
exactly one `zsock_select` call is made and the wait budget passed to it is
`tv_sec = 0`, `tv_usec = 500000` (500 ms), whatever timeouts
(`sendTimeoutMs`, `recvTimeoutMs`) were supplied to `Plaintext_Connect`
beforehand (they do not flow into these operations at all). -/
theorem poll_budget_is_500ms (renv : RecvEnv) (senv : SendEnv)
    (pPlaintextParams : PlaintextParams) (bytesToRecv bytesToSend : Nat)
    (sendTimeoutMs recvTimeoutMs : Nat) :
    (Plaintext_Recv renv pPlaintextParams bytesToRecv).selectCalls =
      [{ nfds := pPlaintextParams.socketDescriptor + 1,
         readfd := some pPlaintextParams.socketDescriptor,
         writefd := none,
         timeout := { tv_sec := 0, tv_usec := 500000 } }] ∧
    (Plaintext_Send senv pPlaintextParams bytesToSend).selectCalls =
      [{ nfds := pPlaintextParams.socketDescriptor + 1,
         readfd := none,
         writefd := some pPlaintextParams.socketDescriptor,
         timeout := { tv_sec := 0, tv_usec := 500000 } }] :=
  ⟨rfl, rfl⟩

/-- C6: `Plaintext_Send` computes the same outcome as `Plaintext_Recv` when
writability is substituted for readability and write for read: for every
combination of poll result, I/O result and errno, the returned value, the
log entry, and the I/O calls attempted coincide. -/
theorem send_mirrors_recv (selectResult ioResult errno : Int)
    (pPlaintextParams : PlaintextParams) (byteCount : Nat) :
    (Plaintext_Send
        { selectResult := selectResult, sendResult := ioResult, errno := errno }
        pPlaintextParams byteCount).ret =
      (Plaintext_Recv
        { selectResult := selectResult, recvResult := ioResult, errno := errno }
        pPlaintextParams byteCount).ret ∧
    (Plaintext_Send
        { selectResult := selectResult, sendResult := ioResult, errno := errno }
        pPlaintextParams byteCount).logged =
      (Plaintext_Recv
        { selectResult := selectResult, recvResult := ioResult, errno := errno }
        pPlaintextParams byteCount).logged ∧
    (Plaintext_Send
        { selectResult := selectResult, sendResult := ioResult, errno := errno }
        pPlaintextParams byteCount).sendCalls =
      (Plaintext_Recv
        { selectResult := selectResult, recvResult := ioResult, errno := errno }
        pPlaintextParams byteCount).recvCalls :=
  ⟨rfl, rfl, rfl⟩

/-- C7: `Plaintext_Connect` and `Plaintext_Disconnect` called with a null
context, or with a context whose parameter-block pointer is null, return
`SOCKETS_INVALID_PARAMETER` and invoke the socket collaborator zero times,
for every collaborator and every other argument. -/
theorem null_context_invalid_parameter
    (sockets_Connect : Int → ServerInfo → Nat → Nat → SocketStatus × Int)
    (sockets_Disconnect : Int → SocketStatus)
    (pNetworkContext : Option NetworkContext) (pServerInfo : ServerInfo)
    (sendTimeoutMs recvTimeoutMs : Nat)
    (h : pNetworkContext = none ∨
      pNetworkContext = some { pParams := none }) :
    (Plaintext_Connect sockets_Connect pNetworkContext pServerInfo
        sendTimeoutMs recvTimeoutMs).status = SocketStatus.invalidParameter ∧
    (Plaintext_Connect sockets_Connect pNetworkContext pServerInfo
        sendTimeoutMs recvTimeoutMs).calls = [] ∧
    (Plaintext_Disconnect sockets_Disconnect pNetworkContext).status =
      SocketStatus.invalidParameter ∧
    (Plaintext_Disconnect sockets_Disconnect pNetworkContext).calls = [] := by
  rcases h with h | h <;> subst h <;>
    simp [Plaintext_Connect, Plaintext_Disconnect]

/-- Witness for C7 at a concrete input: a context whose parameter-block
pointer is null, with concrete collaborators. -/
theorem null_context_invalid_parameter_witness :
    (Plaintext_Connect (fun fd _ _ _ => (SocketStatus.success, fd + 1))
        (some { pParams := none }) { hostName := "host", port := 80 }
        100 200).status = SocketStatus.invalidParameter ∧
    (Plaintext_Connect (fun fd _ _ _ => (SocketStatus.success, fd + 1))
        (some { pParams := none }) { hostName := "host", port := 80 }
        100 200).calls = [] ∧
    (Plaintext_Disconnect (fun _ => SocketStatus.success)
        (some { pParams := none })).status = SocketStatus.invalidParameter ∧
    (Plaintext_Disconnect (fun _ => SocketStatus.success)
        (some { pParams := none })).calls = [] :=
  null_context_invalid_parameter _ _ _ _ _ _ (Or.inr rfl)

/-- C8: `Plaintext_Connect` on a valid context delegates exactly once to
`Sockets_Connect`, passing the parameter block's current socket-descriptor
value behind the pointer and forwarding both timeouts unchanged; it returns
exactly the status the collaborator produces, and the descriptor the
collaborator stores through the pointer lands in the parameter block. -/
theorem connect_delegates_once
    (sockets_Connect : Int → ServerInfo → Nat → Nat → SocketStatus × Int)
    (pPlaintextParams : PlaintextParams) (pServerInfo : ServerInfo)
    (sendTimeoutMs recvTimeoutMs : Nat) :
    (Plaintext_Connect sockets_Connect
        (some { pParams := some pPlaintextParams }) pServerInfo
        sendTimeoutMs recvTimeoutMs).status =
      (sockets_Connect pPlaintextParams.socketDescriptor pServerInfo
        sendTimeoutMs recvTimeoutMs).1 ∧
    (Plaintext_Connect sockets_Connect
        (some { pParams := some pPlaintextParams }) pServerInfo
        sendTimeoutMs recvTimeoutMs).calls =
      [{ descriptorIn := pPlaintextParams.socketDescriptor,
         serverInfo := pServerInfo,
         sendTimeoutMs := sendTimeoutMs,
         recvTimeoutMs := recvTimeoutMs }] ∧
    (Plaintext_Connect sockets_Connect
        (some { pParams := some pPlaintextParams }) pServerInfo
        sendTimeoutMs recvTimeoutMs).ctx =
      some { pParams := some { socketDescriptor :=
        (sockets_Connect pPlaintextParams.socketDescriptor pServerInfo
          sendTimeoutMs recvTimeoutMs).2 } } :=
  ⟨rfl, rfl, rfl⟩

/-- C9: `Plaintext_Recv`, `Plaintext_Send` and `Plaintext_Disconnect` leave
the parameter block (hence its socket-descriptor field) and the context
unchanged, for every environment, collaborator and argument; only
`Plaintext_Connect` writes the handle field. -/
theorem recv_send_disconnect_preserve_context (renv : RecvEnv) (senv : SendEnv)
    (sockets_Disconnect : Int → SocketStatus)
    (pPlaintextParams : PlaintextParams) (bytesToRecv bytesToSend : Nat) :
    (Plaintext_Recv renv pPlaintextParams bytesToRecv).params =
      pPlaintextParams ∧
    (Plaintext_Send senv pPlaintextParams bytesToSend).params =
      pPlaintextParams ∧
    (Plaintext_Disconnect sockets_Disconnect
        (some { pParams := some pPlaintextParams })).ctx =
      some { pParams := some pPlaintextParams } :=
  ⟨rfl, rfl, rfl⟩

/-- C10: whenever the readiness poll itself errors (`selectResult < 0`), both
`Plaintext_Recv` and `Plaintext_Send` issue a transport-error log entry
reporting `errno` before returning, even though no read or write call was
attempted. -/
theorem poll_error_logs_errno (renv : RecvEnv) (senv : SendEnv)
    (pPlaintextParams : PlaintextParams) (bytesToRecv bytesToSend : Nat)
    (hr : renv.selectResult < 0) (hs : senv.selectResult < 0) :
    (Plaintext_Recv renv pPlaintextParams bytesToRecv).logged =
      some renv.errno ∧
    (Plaintext_Recv renv pPlaintextParams bytesToRecv).recvCalls = [] ∧
    (Plaintext_Send senv pPlaintextParams bytesToSend).logged =
      some senv.errno ∧
    (Plaintext_Send senv pPlaintextParams bytesToSend).sendCalls = [] := by
  have hrp : ¬ renv.selectResult > 0 := by omega
  have hsp : ¬ senv.selectResult > 0 := by omega
  simp [Plaintext_Recv, Plaintext_Send, logTransportError, hr, hs, hrp, hsp]

/-- Witness for C10 at a concrete input. -/
theorem poll_error_logs_errno_witness :
    (Plaintext_Recv { selectResult := -1, recvResult := 9, errno := 42 }
      { socketDescriptor := 4 } 8).logged = some 42 ∧
    (Plaintext_Recv { selectResult := -1, recvResult := 9, errno := 42 }
      { socketDescriptor := 4 } 8).recvCalls = [] ∧
    (Plaintext_Send { selectResult := -3, sendResult := 9, errno := 13 }
      { socketDescriptor := 4 } 8).logged = some 13 ∧
    (Plaintext_Send { selectResult := -3, sendResult := 9, errno := 13 }
      { socketDescriptor := 4 } 8).sendCalls = [] :=
  poll_error_logs_errno _ _ _ _ _ (by decide) (by decide)
